import Mathlib

/-!
Verification of Craftivo's `src/script.js` (scroll-spy navigation).

The script is shallowly embedded: DOM elements become records, the
mutable "active" class becomes a `Bool` field threaded through pure
state-transition functions, and host API calls that can throw
(`document.querySelector` with an invalid selector, member access on a
`null` lookup result) return `Except DOMError`.

Host-API modelling conventions (documented once here):
* `getAttribute` yields `Option String`; interpolating a `null`
  attribute into a selector string coerces it to the string `"null"`,
  as JavaScript template literals do (`domStringOf`).
* `document.querySelector` over this page is modelled by
  `selectorResult`: the id-bearing elements of the document are the
  `section` elements; an empty selector or an id selector whose
  identifier falls outside a conservative CSS identifier grammar
  (`validIdent`) throws `SyntaxError`; a bare name is a type selector,
  which matches the first `section` element when the name is
  `"section"` and nothing otherwise.
* The attribute selector built by `setActiveLink` via a template
  literal throws `SyntaxError` when the interpolated section id
  contains a double-quote character, which breaks the quoted attribute
  string (`hasDQuote`); ids containing backslash escapes are outside
  the model.
-/

namespace Craftivo

/-- A `<section>` element: the only id-bearing elements the script queries.
The `id` attribute may be absent. -/
structure Sect where
  id : Option String
  deriving DecidableEq, Repr

/-- A `.nav-link` element: `href` drives the click-to-scroll lookup,
`data-target` drives the active-link matching, `active` records the
presence of the `"active"` class. -/
structure NavLink where
  href : Option String
  dataTarget : Option String
  active : Bool
  deriving DecidableEq, Repr

/-- The `.logo` element; its own `href` is never read by the script. -/
structure Logo where
  href : Option String
  deriving DecidableEq, Repr

/-- A page configuration: the element collections captured at startup.
`logo = none` models a document with no `.logo` element. -/
structure Page where
  sections : List Sect
  navLinks : List NavLink
  logo : Option Logo
  deriving DecidableEq, Repr

/-- Exceptions the host APIs can raise: `SyntaxError` from
`querySelector` on an invalid selector, `TypeError` from member access
on `null`. -/
inductive DOMError where
  | syntaxError
  | typeError
  deriving DecidableEq, Repr

/-- Observable side effects of the click handlers. -/
inductive Effect where
  | preventDefault
  | scrollIntoView (target : Sect) (behavior block : String)
  deriving DecidableEq, Repr

/-- One IntersectionObserver entry: the observed element and whether it
now intersects the root band. -/
structure Entry where
  isIntersecting : Bool
  target : Sect
  deriving DecidableEq, Repr

/-- JavaScript coercion of a possibly-`null` attribute value to a
string, as performed by template literals and by `querySelector`'s
argument conversion: `null` becomes `"null"`. -/
def domStringOf : Option String → String
  | none => "null"
  | some s => s

/-- The double-quote character. -/
def dquote : Char := Char.ofNat 34

/-- Whether a string contains a double quote (which breaks the quoted
attribute-selector string built by `setActiveLink`). -/
def hasDQuote (s : String) : Bool :=
  s.toList.any (fun c => c = dquote)

/-- Characters allowed inside a (conservatively modelled) CSS identifier. -/
def identChar (c : Char) : Bool :=
  c.isAlpha || c.isDigit || c = Char.ofNat 45 || c = Char.ofNat 95

/-- Conservative CSS identifier grammar: nonempty, starts with a letter
or underscore, continues with letters, digits, hyphen, underscore.
`querySelector` throws `SyntaxError` on identifiers outside it (e.g. the
empty identifier of the selector `"#"`, or `"#1"`). -/
def validIdent : List Char → Bool
  | [] => false
  | c :: rest => (c.isAlpha || c = Char.ofNat 95) && rest.all identChar

/-- Model of `document.querySelector(s)` over this page: `[]` (empty
selector) throws; `#name` looks up the first section with that id
(throwing if `name` is not a valid identifier); a bare name is a type
selector, matching the first `section` element iff the name is
`"section"`. -/
def selectorResult (page : Page) (s : String) : Except DOMError (Option Sect) :=
  match s.toList with
  | [] => .error .syntaxError
  | c :: rest =>
    if c = Char.ofNat 35 then
      if validIdent rest then
        .ok (page.sections.find? (fun sec => sec.id == some (String.mk rest)))
      else .error .syntaxError
    else
      if validIdent (c :: rest) then
        .ok (if String.mk (c :: rest) = "section" then page.sections.head? else none)
      else .error .syntaxError

/-- Whether `selectorResult` succeeds on `s` (same case analysis,
no page needed). -/
def selectorOk (s : String) : Bool :=
  match s.toList with
  | [] => false
  | c :: rest =>
    if c = Char.ofNat 35 then validIdent rest else validIdent (c :: rest)

/-- Whether an `Except` result is a success. -/
def resultOk {α : Type} : Except DOMError α → Bool
  | .ok _ => true
  | .error _ => false

/-- `removeAllActiveClasses` from `script.js`:
`navLinks.forEach(link => link.classList.remove("active"))`. -/
def removeAllActiveClasses (links : List NavLink) : List NavLink :=
  links.map (fun l => { l with active := false })

/-- `element.classList.add("active")` applied to the element at
position `i` of the collection (positions past the end leave the
collection unchanged; the script only uses indices of found elements). -/
def setIdxActive : List NavLink → Nat → List NavLink
  | [], _ => []
  | l :: ls, 0 => { l with active := true } :: ls
  | l :: ls, n + 1 => l :: setIdxActive ls n

/-- Model of `document.querySelector('.nav-link[data-target="key"]')`:
the position of the first nav link whose `data-target` attribute equals
`key`. -/
def findTargetIdx (key : String) : List NavLink → Option Nat
  | [] => none
  | l :: ls =>
    if l.dataTarget = some key then some 0
    else (findTargetIdx key ls).map (· + 1)

/-- `setActiveLink(sectionId)` from `script.js`: build the attribute
selector (throwing on an embedded quote), find the matching nav link;
if found, remove the active class from every link, then add it to the
found link; otherwise do nothing. -/
def setActiveLink (links : List NavLink) (sectionId : Option String) :
    Except DOMError (List NavLink) :=
  let key := domStringOf sectionId
  if hasDQuote key then .error .syntaxError
  else
    match findTargetIdx key links with
    | some i => .ok (setIdxActive (removeAllActiveClasses links) i)
    | none => .ok links

/-- The IntersectionObserver callback from `script.js`:
`entries.forEach(entry => { if (entry.isIntersecting) setActiveLink(entry.target.getAttribute("id")) })`.
An exception thrown while processing an entry aborts the iteration. -/
def observerCallback (links : List NavLink) :
    List Entry → Except DOMError (List NavLink)
  | [] => .ok links
  | e :: es =>
    match (if e.isIntersecting then setActiveLink links e.target.id else .ok links) with
    | .ok links2 => observerCallback links2 es
    | .error err => .error err

/-- Initial-state seeding from `script.js`:
`if (navLinks.length > 0) navLinks[0].classList.add("active")`. -/
def seedActive (links : List NavLink) : List NavLink :=
  if 0 < links.length then setIdxActive links 0 else links

/-- Script initialization: handlers are attached (pure no-ops in the
model), the first nav link is seeded active, then
`document.querySelector(".logo").addEventListener(...)` runs — member
access on `null` throws `TypeError` when no `.logo` element exists. -/
def initScript (page : Page) : Except DOMError (List NavLink) :=
  match page.logo with
  | some _ => .ok (seedActive page.navLinks)
  | none => .error .typeError

/-- The nav-link click handler from `script.js`: `e.preventDefault()`,
read the `href` attribute, `document.querySelector` it, and
`scrollIntoView({behavior:"smooth", block:"start"})` the result when it
is non-null. Returns the list of performed effects. -/
def clickNavLink (page : Page) (link : NavLink) : Except DOMError (List Effect) :=
  match selectorResult page (domStringOf link.href) with
  | .error err => .error err
  | .ok (some sec) => .ok [Effect.preventDefault, Effect.scrollIntoView sec "smooth" "start"]
  | .ok none => .ok [Effect.preventDefault]

/-- The logo click handler from `script.js`: `e.preventDefault()`, then
`document.querySelector("#home").scrollIntoView(...)` — member access
on `null` throws `TypeError` when no section has id `"home"`. The
logo's own `href` is never read. -/
def clickLogo (page : Page) : Except DOMError (List Effect) :=
  match selectorResult page "#home" with
  | .error err => .error err
  | .ok none => .error .typeError
  | .ok (some sec) => .ok [Effect.preventDefault, Effect.scrollIntoView sec "smooth" "start"]

/-- The selector key an observer entry produces for matching. -/
def entryKey (e : Entry) : String := domStringOf e.target.id

/-- Whether an entry makes `setActiveLink` change state: it intersects
and some nav link's `data-target` matches its key. -/
def isHit (links : List NavLink) (e : Entry) : Bool :=
  e.isIntersecting && (findTargetIdx (entryKey e) links).isSome

/-- The last entry of a batch that is a hit, if any (the one whose
marking survives processing the whole batch). -/
def lastHit (links : List NavLink) : List Entry → Option Entry
  | [] => none
  | e :: es =>
    match lastHit links es with
    | some x => some x
    | none => if isHit links e then some e else none

/-- Number of nav links currently carrying the active class. -/
def countActive (links : List NavLink) : Nat :=
  (links.filter (fun l => l.active)).length

/-- States of the nav-link collection reachable after initialization:
the seeded state, and anything an observer callback produces from a
reachable state. Click handlers never touch the active flags
(`clickNavLink` returns effects only), so they add no states. -/
inductive PostInit (links0 : List NavLink) : List NavLink → Prop
  | seeded : PostInit links0 (seedActive links0)
  | observe (st st' : List NavLink) (entries : List Entry) :
      PostInit links0 st → observerCallback st entries = .ok st' →
      PostInit links0 st'

/-- All reachable states: the pre-script markup state `links0`, plus
every post-initialization state. -/
def Reachable (links0 st : List NavLink) : Prop :=
  st = links0 ∨ PostInit links0 st

/-- The `observerOptions` object from `script.js`. -/
structure ObserverOptions where
  root : Option Unit
  rootMargin : String
  threshold : ℚ
  deriving DecidableEq

/-- Embedding of the `observerOptions` literal in `script.js`:
`{ root: null, rootMargin: "-70% 0px -70% 0px", threshold: 0 }`. -/
def observerOptions : ObserverOptions :=
  { root := none, rootMargin := "-70% 0px -70% 0px", threshold := 0 }

/-- One component of a parsed `rootMargin`: a signed value that is
either a percentage of the root dimension or an absolute pixel length. -/
structure Margin where
  value : Int
  isPercent : Bool
  deriving DecidableEq, Repr

/-- Numeric value of a nonempty all-digit character list. -/
def digitsVal (cs : List Char) : Option Nat :=
  if cs = [] then none
  else
    cs.foldl
      (fun acc c =>
        acc.bind (fun n => if c.isDigit then some (n * 10 + (c.toNat - 48)) else none))
      (some 0)

/-- Parse an unsigned `rootMargin` component: digits followed by `%` or
`px`, per the IntersectionObserver specification. -/
def parseMagnitude (cs : List Char) : Option Margin :=
  match cs.reverse with
  | '%' :: ds => (digitsVal ds.reverse).map (fun n => ⟨(n : Int), true⟩)
  | 'x' :: 'p' :: ds => (digitsVal ds.reverse).map (fun n => ⟨(n : Int), false⟩)
  | _ => none

/-- Parse a possibly negated `rootMargin` component. -/
def parseComponent (cs : List Char) : Option Margin :=
  match cs with
  | '-' :: rest => (parseMagnitude rest).map (fun m => ⟨-m.value, m.isPercent⟩)
  | _ => parseMagnitude cs

/-- Parse a four-component `rootMargin` string into
(top, right, bottom, left) margins. -/
def parseRootMargin (s : String) : Option (Margin × Margin × Margin × Margin) :=
  match ((s.toList.splitOn ' ').filter (fun t => !t.isEmpty)).mapM parseComponent with
  | some [t, r, b, l] => some (t, r, b, l)
  | _ => none

/-- Length a margin contributes against a reference length, per the
IntersectionObserver specification: percentages resolve against the
reference, pixel values are absolute. -/
def marginLength (m : Margin) (refLen : ℚ) : ℚ :=
  if m.isPercent then (m.value : ℚ) * refLen / 100 else (m.value : ℚ)

/-- The vertical band the observer is configured with, for a viewport
of height `H`: the root rect `[0, H]` grown by the top margin at its
top edge and the bottom margin at its bottom edge (negative margins
shrink it). Returns `(top edge, bottom edge)`. -/
def viewportBand (H : ℚ) : Option (ℚ × ℚ) :=
  (parseRootMargin observerOptions.rootMargin).map
    (fun ms => (0 - marginLength ms.1 H, H + marginLength ms.2.2.1 H))

/-- Demo sections `[home, about, projects]` used by concrete witnesses. -/
def demoSections : List Sect :=
  [⟨some "home"⟩, ⟨some "about"⟩, ⟨some "projects"⟩]

/-- Demo nav links targeting the demo sections, all initially inactive. -/
def demoLinks : List NavLink :=
  [⟨some "#home", some "home", false⟩,
   ⟨some "#about", some "about", false⟩,
   ⟨some "#projects", some "projects", false⟩]

/-- Demo page: the demo sections and links plus a logo pointing at `#home`. -/
def demoPage : Page :=
  { sections := demoSections, navLinks := demoLinks, logo := some ⟨some "#home"⟩ }

@[simp]
theorem removeAll_nil : removeAllActiveClasses [] = [] := rfl

@[simp]
theorem removeAll_cons (l : NavLink) (ls : List NavLink) :
    removeAllActiveClasses (l :: ls) =
      { l with active := false } :: removeAllActiveClasses ls := rfl

@[simp]
theorem removeAll_length (ls : List NavLink) :
    (removeAllActiveClasses ls).length = ls.length := by
  simp [removeAllActiveClasses]

theorem removeAll_removeAll (ls : List NavLink) :
    removeAllActiveClasses (removeAllActiveClasses ls) = removeAllActiveClasses ls := by
  induction ls with
  | nil => rfl
  | cons l ls ih => simp [ih]

@[simp]
theorem setIdxActive_nil (i : Nat) : setIdxActive [] i = [] := rfl

@[simp]
theorem setIdxActive_cons_zero (l : NavLink) (ls : List NavLink) :
    setIdxActive (l :: ls) 0 = { l with active := true } :: ls := rfl

@[simp]
theorem setIdxActive_cons_succ (l : NavLink) (ls : List NavLink) (n : Nat) :
    setIdxActive (l :: ls) (n + 1) = l :: setIdxActive ls n := rfl

theorem removeAll_setIdxActive (ls : List NavLink) :
    ∀ i, removeAllActiveClasses (setIdxActive ls i) = removeAllActiveClasses ls := by
  induction ls with
  | nil => intro i; rfl
  | cons l ls ih =>
    intro i
    cases i with
    | zero => simp
    | succ n => simp [ih n]

@[simp]
theorem findTargetIdx_nil (key : String) : findTargetIdx key [] = none := rfl

theorem findTargetIdx_cons (key : String) (l : NavLink) (ls : List NavLink) :
    findTargetIdx key (l :: ls) =
      if l.dataTarget = some key then some 0
      else (findTargetIdx key ls).map (· + 1) := rfl

theorem findTargetIdx_removeAll (key : String) (ls : List NavLink) :
    findTargetIdx key (removeAllActiveClasses ls) = findTargetIdx key ls := by
  induction ls with
  | nil => rfl
  | cons l ls ih => simp [findTargetIdx_cons, ih]

theorem findTargetIdx_congr (key : String) {a b : List NavLink}
    (h : removeAllActiveClasses a = removeAllActiveClasses b) :
    findTargetIdx key a = findTargetIdx key b := by
  rw [← findTargetIdx_removeAll key a, ← findTargetIdx_removeAll key b, h]

theorem findTargetIdx_eq_none {key : String} {ls : List NavLink}
    (h : ∀ l ∈ ls, l.dataTarget ≠ some key) : findTargetIdx key ls = none := by
  induction ls with
  | nil => rfl
  | cons l ls ih =>
    rw [findTargetIdx_cons]
    have hl : l.dataTarget ≠ some key := h l (List.mem_cons_self l ls)
    rw [if_neg hl, ih fun x hx => h x (List.mem_cons_of_mem l hx)]
    rfl

theorem findTargetIdx_lt_length (key : String) :
    ∀ (ls : List NavLink) (i : Nat), findTargetIdx key ls = some i → i < ls.length := by
  intro ls
  induction ls with
  | nil => intro i h; simp at h
  | cons l ls ih =>
    intro i h
    rw [findTargetIdx_cons] at h
    by_cases hd : l.dataTarget = some key
    · simp [hd] at h
      simp at h ⊢
      omega
    · simp [hd] at h
      obtain ⟨j, hj, rfl⟩ := h
      have := ih j hj
      simp
      omega

@[simp]
theorem countActive_nil : countActive [] = 0 := rfl

theorem countActive_cons (l : NavLink) (ls : List NavLink) :
    countActive (l :: ls) = (if l.active then 1 else 0) + countActive ls := by
  by_cases h : l.active
  · simp [countActive, List.filter_cons, h]
    omega
  · simp [countActive, List.filter_cons, h]

theorem countActive_of_all_false {ls : List NavLink}
    (h : ∀ l ∈ ls, l.active = false) : countActive ls = 0 := by
  induction ls with
  | nil => rfl
  | cons l ls ih =>
    have hl : l.active = false := h l (by simp)
    rw [countActive_cons, hl]
    simp [ih fun x hx => h x (by simp [hx])]

theorem removeAll_all_false (ls : List NavLink) :
    ∀ l ∈ removeAllActiveClasses ls, l.active = false := by
  intro l hl
  simp [removeAllActiveClasses] at hl
  obtain ⟨x, _, rfl⟩ := hl
  rfl

theorem countActive_setIdxActive_one :
    ∀ (ls : List NavLink) (i : Nat), (∀ l ∈ ls, l.active = false) →
      i < ls.length → countActive (setIdxActive ls i) = 1 := by
  intro ls
  induction ls with
  | nil => intro i _ h; simp at h
  | cons l ls ih =>
    intro i h0 hi
    cases i with
    | zero =>
      simp [countActive_cons]
      exact countActive_of_all_false fun x hx => h0 x (by simp [hx])
    | succ n =>
      have hl : l.active = false := h0 l (by simp)
      rw [setIdxActive_cons_succ, countActive_cons, hl]
      simp at hi
      simp [ih n (fun x hx => h0 x (by simp [hx])) (by omega)]

theorem setActiveLink_found (links : List NavLink) (sid : Option String) (i : Nat)
    (hq : hasDQuote (domStringOf sid) = false)
    (h : findTargetIdx (domStringOf sid) links = some i) :
    setActiveLink links sid = .ok (setIdxActive (removeAllActiveClasses links) i) := by
  simp [setActiveLink, hq, h]

theorem setActiveLink_notFound (links : List NavLink) (sid : Option String)
    (hq : hasDQuote (domStringOf sid) = false)
    (h : findTargetIdx (domStringOf sid) links = none) :
    setActiveLink links sid = .ok links := by
  simp [setActiveLink, hq, h]

theorem lastHit_cons (links : List NavLink) (e : Entry) (es : List Entry) :
    lastHit links (e :: es) =
      match lastHit links es with
      | some x => some x
      | none => if isHit links e then some e else none := rfl

theorem lastHit_cons_not_hit {links : List NavLink} {e : Entry} (es : List Entry)
    (h : isHit links e = false) :
    lastHit links (e :: es) = lastHit links es := by
  rw [lastHit_cons]
  cases lastHit links es <;> simp [h]

theorem setActiveLink_quote (links : List NavLink) (sid : Option String)
    (hq : hasDQuote (domStringOf sid) = true) :
    setActiveLink links sid = .error .syntaxError := by
  simp [setActiveLink, hq]

theorem observerCallback_nil (links : List NavLink) :
    observerCallback links [] = .ok links := rfl

theorem observerCallback_cons (links : List NavLink) (e : Entry) (es : List Entry) :
    observerCallback links (e :: es) =
      match (if e.isIntersecting then setActiveLink links e.target.id else .ok links) with
      | .ok links2 => observerCallback links2 es
      | .error err => .error err := rfl

/-- Processing a batch from any state whose cleared form agrees with
`links` yields: the state unchanged when no entry is a hit, otherwise
the cleared collection with the link matched by the last hit set
active. -/
theorem observerCallback_run (links : List NavLink) :
    ∀ (entries : List Entry) (st : List NavLink),
      removeAllActiveClasses st = removeAllActiveClasses links →
      (∀ x ∈ entries, x.isIntersecting = true → hasDQuote (entryKey x) = false) →
      observerCallback st entries =
        .ok (match lastHit links entries with
             | none => st
             | some e => setIdxActive (removeAllActiveClasses links)
                 ((findTargetIdx (entryKey e) links).getD 0)) := by
  intro entries
  induction entries with
  | nil =>
    intro st hst hq
    rfl
  | cons e es ih =>
    intro st hst hq
    have hq' : ∀ x ∈ es, x.isIntersecting = true → hasDQuote (entryKey x) = false :=
      fun x hx => hq x (List.mem_cons_of_mem e hx)
    rw [observerCallback_cons]
    cases hi : e.isIntersecting with
    | false =>
      have hnh : isHit links e = false := by simp [isHit, hi]
      simp only [hi, Bool.false_eq_true, if_false]
      rw [lastHit_cons_not_hit es hnh]
      exact ih st hst hq'
    | true =>
      have hqe : hasDQuote (entryKey e) = false := hq e (List.mem_cons_self e es) hi
      simp only [hi, if_true]
      cases hfind : findTargetIdx (entryKey e) links with
      | none =>
        have hfs : findTargetIdx (entryKey e) st = none := by
          rw [findTargetIdx_congr (entryKey e) hst]
          exact hfind
        have hnh : isHit links e = false := by simp [isHit, hfind]
        rw [setActiveLink_notFound st e.target.id hqe hfs]
        rw [lastHit_cons_not_hit es hnh]
        exact ih st hst hq'
      | some i =>
        have hfs : findTargetIdx (entryKey e) st = some i := by
          rw [findTargetIdx_congr (entryKey e) hst]
          exact hfind
        have hh : isHit links e = true := by simp [isHit, hi, hfind]
        rw [setActiveLink_found st e.target.id i hqe hfs]
        have hstt : setIdxActive (removeAllActiveClasses st) i
            = setIdxActive (removeAllActiveClasses links) i := by rw [hst]
        rw [hstt]
        have hst2 : removeAllActiveClasses (setIdxActive (removeAllActiveClasses links) i)
            = removeAllActiveClasses links := by
          rw [removeAll_setIdxActive, removeAll_removeAll]
        show observerCallback (setIdxActive (removeAllActiveClasses links) i) es = _
        rw [ih (setIdxActive (removeAllActiveClasses links) i) hst2 hq']
        rw [lastHit_cons]
        cases hle : lastHit links es with
        | some x => rfl
        | none => simp [hh, hfind]

/-- Processing a batch never changes the number of active links away
from one: from a state with exactly one active link, any successfully
processed batch ends with exactly one active link. -/
theorem observerCallback_count_one :
    ∀ (es : List Entry) (st st' : List NavLink), countActive st = 1 →
      observerCallback st es = .ok st' → countActive st' = 1 := by
  intro es
  induction es with
  | nil =>
    intro st st' h1 h2
    rw [observerCallback_nil] at h2
    injection h2 with h
    rw [← h]
    exact h1
  | cons e es ih =>
    intro st st' h1 h2
    rw [observerCallback_cons] at h2
    cases hi : e.isIntersecting with
    | false =>
      simp only [hi, Bool.false_eq_true, if_false] at h2
      exact ih st st' h1 h2
    | true =>
      simp only [hi, if_true] at h2
      cases hq : hasDQuote (domStringOf e.target.id) with
      | true =>
        rw [setActiveLink_quote st e.target.id hq] at h2
        simp at h2
      | false =>
        cases hfind : findTargetIdx (domStringOf e.target.id) st with
        | none =>
          rw [setActiveLink_notFound st e.target.id hq hfind] at h2
          exact ih st st' h1 h2
        | some i =>
          rw [setActiveLink_found st e.target.id i hq hfind] at h2
          apply ih (setIdxActive (removeAllActiveClasses st) i) st' _ h2
          apply countActive_setIdxActive_one
          · exact removeAll_all_false st
          · have hlt := findTargetIdx_lt_length (domStringOf e.target.id) st i hfind
            simpa using hlt

/-- Success of `selectorResult` depends only on the selector string. -/
theorem resultOk_selectorResult (page : Page) (s : String) :
    resultOk (selectorResult page s) = selectorOk s := by
  simp only [selectorResult, selectorOk]
  cases hcs : s.toList with
  | nil => rfl
  | cons c rest =>
    by_cases hc : c = Char.ofNat 35
    · by_cases hv : validIdent rest = true
      · simp [hc, hv, resultOk]
      · simp [hc, hv, resultOk]
    · by_cases hv : validIdent (c :: rest) = true
      · simp [hc, hv, resultOk]
      · simp [hc, hv, resultOk]

/-- Error-freedom of the observer callback depends only on the entries:
quote-free section ids can never make `setActiveLink` throw. -/
theorem observerCallback_ok :
    ∀ (entries : List Entry) (st : List NavLink),
      (∀ e ∈ entries, hasDQuote (domStringOf e.target.id) = false) →
      resultOk (observerCallback st entries) = true := by
  intro entries
  induction entries with
  | nil =>
    intro st _
    rfl
  | cons e es ih =>
    intro st h
    have h' : ∀ x ∈ es, hasDQuote (domStringOf x.target.id) = false :=
      fun x hx => h x (List.mem_cons_of_mem e hx)
    have he : hasDQuote (domStringOf e.target.id) = false :=
      h e (List.mem_cons_self e es)
    rw [observerCallback_cons]
    cases hi : e.isIntersecting with
    | false =>
      simp only [hi, Bool.false_eq_true, if_false]
      exact ih st h'
    | true =>
      simp only [hi, if_true]
      cases hfind : findTargetIdx (domStringOf e.target.id) st with
      | none =>
        rw [setActiveLink_notFound st e.target.id he hfind]
        exact ih st h'
      | some i =>
        rw [setActiveLink_found st e.target.id i he hfind]
        exact ih _ h'

/-- Parsed form of the configured `rootMargin` literal: top and bottom
margins of minus seventy percent, zero-pixel left and right margins. -/
theorem parseRootMargin_concrete :
    parseRootMargin observerOptions.rootMargin =
      some (⟨-70, true⟩, ⟨0, false⟩, ⟨-70, true⟩, ⟨0, false⟩) := by decide

/-- C1, counterexample: the claim says the configured band spans from
30% to 70% of viewport height, i.e. `(top, bottom) = (30, 70)` for a
viewport of height 100; but the configured `rootMargin`
`"-70% 0px -70% 0px"` puts the band's top edge at 70 and its bottom
edge at 30. -/
theorem c1_counterexample : viewportBand 100 ≠ some ((30 : ℚ), 70) := by
  have h : viewportBand 100 = some ((70 : ℚ), 30) := by
    rw [viewportBand, parseRootMargin_concrete]
    norm_num [marginLength]
  rw [h]
  norm_num

/-- C1 (amended): the configured margins exclude the top 70% and bottom
70% of the viewport — for a viewport of height `H` the band's top edge
sits at `70·H/100` and its bottom edge at `30·H/100`, an inverted
(empty) band, not the 30%-to-70% band the claim states; the trigger
threshold is 0 (any non-zero overlap), as claimed. -/
theorem c1_amended (H : ℚ) (hH : 0 < H) :
    viewportBand H = some (70 * H / 100, 30 * H / 100) ∧
    observerOptions.threshold = 0 ∧
    30 * H / 100 < 70 * H / 100 := by
  refine ⟨?_, rfl, by linarith⟩
  rw [viewportBand, parseRootMargin_concrete]
  simp [marginLength]
  constructor
  · ring
  · ring

/-- C1 witness: the amended statement at viewport height 100. -/
theorem c1_amended_witness :
    viewportBand 100 = some (70 * 100 / 100, 30 * 100 / 100) ∧
    observerOptions.threshold = 0 ∧
    (30 : ℚ) * 100 / 100 < 70 * 100 / 100 :=
  c1_amended 100 (by norm_num)

/-- C2, counterexample: on a page with no `.logo` element,
initialization throws a `TypeError` (`logo.addEventListener` on `null`)
instead of producing silent inaction. -/
theorem c2_counterexample :
    initScript { sections := demoSections, navLinks := demoLinks, logo := none } =
      .error DOMError.typeError := rfl

/-- C2 (amended): no operation throws provided the page has a `.logo`
element, every nav link's `href` is a valid selector after `null`
coercion, a section with id `"home"` exists (so the logo click does not
dereference `null`), and no section id embeds a double quote into the
attribute selector; under those conditions initialization, every nav
link's click handler, the logo click handler, and every observer
callback over the observed sections succeed. -/
theorem c2_amended (page : Page) (lg : Logo) (hlogo : page.logo = some lg)
    (hhrefs : ∀ nl ∈ page.navLinks, selectorOk (domStringOf nl.href) = true)
    (hhome : (page.sections.find? (fun s => s.id == some "home")).isSome = true)
    (hids : ∀ s ∈ page.sections, hasDQuote (domStringOf s.id) = false) :
    resultOk (initScript page) = true ∧
    (∀ nl ∈ page.navLinks, resultOk (clickNavLink page nl) = true) ∧
    resultOk (clickLogo page) = true ∧
    (∀ (st : List NavLink) (entries : List Entry),
      (∀ e ∈ entries, e.target ∈ page.sections) →
      resultOk (observerCallback st entries) = true) := by
  refine ⟨?_, ?_, ?_, ?_⟩
  · simp [initScript, hlogo, resultOk]
  · intro nl hnl
    have hs : resultOk (selectorResult page (domStringOf nl.href)) = true := by
      rw [resultOk_selectorResult]
      exact hhrefs nl hnl
    cases hres : selectorResult page (domStringOf nl.href) with
    | error err =>
      rw [hres] at hs
      simp [resultOk] at hs
    | ok v =>
      cases v with
      | none => simp [clickNavLink, hres, resultOk]
      | some sec => simp [clickNavLink, hres, resultOk]
  · have hs : selectorResult page "#home" =
        .ok (page.sections.find? (fun s => s.id == some "home")) := rfl
    obtain ⟨sec, hsec⟩ := Option.isSome_iff_exists.mp hhome
    simp [clickLogo, hs, hsec, resultOk]
  · intro st entries hmem
    exact observerCallback_ok entries st fun e he => hids e.target (hmem e he)

/-- C2 witness: the amended statement on the demo page. -/
theorem c2_amended_witness :
    resultOk (initScript demoPage) = true ∧
    (∀ nl ∈ demoPage.navLinks, resultOk (clickNavLink demoPage nl) = true) ∧
    resultOk (clickLogo demoPage) = true ∧
    (∀ (st : List NavLink) (entries : List Entry),
      (∀ e ∈ entries, e.target ∈ demoPage.sections) →
      resultOk (observerCallback st entries) = true) :=
  c2_amended demoPage ⟨some "#home"⟩ rfl (by decide) (by decide) (by decide)

/-- C3, counterexample: the seeded state is reachable before any
visibility observation fires, yet it already has one active link, not
zero as the claim states. -/
theorem c3_counterexample :
    PostInit demoLinks (seedActive demoLinks) ∧
    countActive (seedActive demoLinks) = 1 :=
  ⟨PostInit.seeded, by decide⟩

/-- C3 (amended): from an all-inactive nonempty markup state, exactly 0
nav links are active before initial seeding and exactly 1 in every
post-initialization state (including before the first observation
fires, where the claim said 0); every reachable state carries at most
one active link. Click handling never touches the flags. -/
theorem c3_amended (links0 : List NavLink)
    (h0 : ∀ l ∈ links0, l.active = false) (hne : links0 ≠ []) :
    countActive links0 = 0 ∧
    (∀ st, PostInit links0 st → countActive st = 1) ∧
    (∀ st, Reachable links0 st → countActive st ≤ 1) := by
  have hzero : countActive links0 = 0 := countActive_of_all_false h0
  have hone : ∀ st, PostInit links0 st → countActive st = 1 := by
    intro st hst
    induction hst with
    | seeded =>
      rw [seedActive]
      have hlen : 0 < links0.length := by
        cases links0 with
        | nil => exact absurd rfl hne
        | cons a as => simp
      rw [if_pos hlen]
      exact countActive_setIdxActive_one links0 0 h0 hlen
    | observe st1 st1' entries1 hpost hobs ih =>
      exact observerCallback_count_one entries1 st1 st1' ih hobs
  refine ⟨hzero, hone, ?_⟩
  intro st hst
  cases hst with
  | inl h =>
    rw [h, hzero]
    exact Nat.zero_le 1
  | inr h =>
    rw [hone st h]

/-- C3 witness: the amended statement on the demo links. -/
theorem c3_amended_witness :
    countActive demoLinks = 0 ∧
    (∀ st, PostInit demoLinks st → countActive st = 1) ∧
    (∀ st, Reachable demoLinks st → countActive st ≤ 1) :=
  c3_amended demoLinks (by decide) (by decide)

/-- C4, counterexample: a batch whose last intersecting-and-matched
entry is `"projects"` (matched at position 2) but whose first
intersecting entry carries the quote-embedding id `a"b` does not end
with the `"projects"` link active: the attribute selector built for the
first entry throws a `SyntaxError`, aborting the batch before the hit
is processed. -/
theorem c4_counterexample :
    observerCallback demoLinks
        [⟨true, ⟨some "a\"b"⟩⟩, ⟨true, ⟨some "projects"⟩⟩] =
      .error DOMError.syntaxError ∧
    lastHit demoLinks [⟨true, ⟨some "a\"b"⟩⟩, ⟨true, ⟨some "projects"⟩⟩] =
      some ⟨true, ⟨some "projects"⟩⟩ :=
  ⟨rfl, by decide⟩

/-- C4 (amended): for every batch in which no intersecting entry's
(coerced) identifier embeds a double quote, and every prior
active-marking state, if the last entry that reports intersection and
has a matching nav link (by `data-target`, independent of `href`)
matches the link at position `i`, then processing the batch succeeds
and leaves active exactly that link: the result is the fully cleared
collection with position `i` set active, and exactly one link is
active. Without the quote-free condition the batch can abort with a
`SyntaxError` before the last hit is processed. -/
theorem c4_last_hit_wins (links : List NavLink) (entries : List Entry) (e : Entry) (i : Nat)
    (hq : ∀ x ∈ entries, x.isIntersecting = true → hasDQuote (entryKey x) = false)
    (hlast : lastHit links entries = some e)
    (hidx : findTargetIdx (entryKey e) links = some i) :
    observerCallback links entries =
      .ok (setIdxActive (removeAllActiveClasses links) i) ∧
    countActive (setIdxActive (removeAllActiveClasses links) i) = 1 := by
  constructor
  · rw [observerCallback_run links entries links rfl hq, hlast]
    simp [hidx]
  · apply countActive_setIdxActive_one
    · exact removeAll_all_false links
    · have hlt := findTargetIdx_lt_length (entryKey e) links i hidx
      simpa using hlt

/-- C4 witness: a batch with two intersecting entries; the
last-processed one ("projects", position 2) wins even though several
prior links are marked active. -/
theorem c4_witness :
    observerCallback demoLinks
        [⟨true, ⟨some "home"⟩⟩, ⟨true, ⟨some "projects"⟩⟩] =
      .ok (setIdxActive (removeAllActiveClasses demoLinks) 2) ∧
    countActive (setIdxActive (removeAllActiveClasses demoLinks) 2) = 1 :=
  c4_last_hit_wins demoLinks [⟨true, ⟨some "home"⟩⟩, ⟨true, ⟨some "projects"⟩⟩]
    ⟨true, ⟨some "projects"⟩⟩ 2 (by decide) (by decide) (by decide)

/-- C5, counterexample: a nav link whose `href` is `"#"` — a target
reference matching no section — does not fail silently: the click
handler's `querySelector("#")` throws a `SyntaxError`. -/
theorem c5_counterexample :
    clickNavLink demoPage ⟨some "#", some "ghost", false⟩ =
      .error DOMError.syntaxError := rfl

/-- C5 (amended): activating a nav link whose `href` is absent, or is
`"#name"` with a valid identifier matching no section's id, suppresses
the default jump and causes no scroll and no error; but an `href` that
is not a valid selector (such as `"#"` or the empty string) makes the
handler throw instead. -/
theorem c5_amended (page : Page) (link : NavLink) :
    (link.href = none → clickNavLink page link = .ok [Effect.preventDefault]) ∧
    (∀ (rest : List Char), link.href = some (String.mk (Char.ofNat 35 :: rest)) →
      validIdent rest = true →
      (∀ sec ∈ page.sections, sec.id ≠ some (String.mk rest)) →
      clickNavLink page link = .ok [Effect.preventDefault]) := by
  constructor
  · intro h
    have hsel : selectorResult page "null" = .ok none := rfl
    simp [clickNavLink, h, domStringOf, hsel]
  · intro rest hhref hv hnm
    have hsel : selectorResult page (String.mk (Char.ofNat 35 :: rest)) =
        .ok (page.sections.find? (fun sec => sec.id == some (String.mk rest))) := by
      simp only [selectorResult]
      rw [show (String.mk (Char.ofNat 35 :: rest)).toList = Char.ofNat 35 :: rest from rfl]
      simp [hv]
    have hfind : page.sections.find? (fun sec => sec.id == some (String.mk rest)) = none := by
      rw [List.find?_eq_none]
      intro sec hsec
      simp
      exact hnm sec hsec
    simp [clickNavLink, hhref, domStringOf, hsel, hfind]

/-- C5 witness: a link with no `href` and a link targeting the absent
section `"ghost"` both click to a silent `preventDefault`-only no-op on
the demo page. -/
theorem c5_amended_witness :
    clickNavLink demoPage ⟨none, some "x", false⟩ = .ok [Effect.preventDefault] ∧
    clickNavLink demoPage ⟨some "#ghost", some "ghost", false⟩ =
      .ok [Effect.preventDefault] :=
  ⟨(c5_amended demoPage ⟨none, some "x", false⟩).1 rfl,
   (c5_amended demoPage ⟨some "#ghost", some "ghost", false⟩).2
     ['g', 'h', 'o', 's', 't'] rfl (by decide) (by decide)⟩

/-- C6, counterexample: a visibility notification for a section whose
id contains a double quote — an identifier matching no nav link —
raises a `SyntaxError` from the attribute selector instead of failing
silently. -/
theorem c6_counterexample :
    observerCallback demoLinks [⟨true, ⟨some "a\"b"⟩⟩] =
      .error DOMError.syntaxError := rfl

/-- C6 (amended): a visibility notification for an intersecting section
whose (coerced) identifier is quote-free and matches no nav link's
`data-target` leaves every nav link's marking exactly unchanged and
raises no error; an identifier embedding a double quote makes the
lookup throw instead. -/
theorem c6_amended (links : List NavLink) (sec : Sect)
    (hq : hasDQuote (domStringOf sec.id) = false)
    (hnm : ∀ nl ∈ links, nl.dataTarget ≠ some (domStringOf sec.id)) :
    observerCallback links [⟨true, sec⟩] = .ok links := by
  have hfind : findTargetIdx (domStringOf sec.id) links = none :=
    findTargetIdx_eq_none hnm
  have hstep : setActiveLink links sec.id = .ok links :=
    setActiveLink_notFound links sec.id hq hfind
  show (match setActiveLink links sec.id with
        | .ok links2 => observerCallback links2 []
        | .error err => .error err) = .ok links
  rw [hstep]
  rfl

/-- C6 witness: a notification for the unmatched section `"contact"`
leaves the demo links unchanged. -/
theorem c6_amended_witness :
    observerCallback demoLinks [⟨true, ⟨some "contact"⟩⟩] = .ok demoLinks :=
  c6_amended demoLinks ⟨some "contact"⟩ (by decide) (by decide)

/-- C7: when a section with id `"home"` exists, activating the logo
suppresses the default action and smooth-scrolls that section to the
top of the viewport, and the result is independent of whatever target
reference the logo element itself carries. -/
theorem c7_logo_click (page : Page) (sec : Sect)
    (hhome : page.sections.find? (fun s => s.id == some "home") = some sec) :
    clickLogo page =
      .ok [Effect.preventDefault, Effect.scrollIntoView sec "smooth" "start"] ∧
    (∀ h1 h2 : Option String,
      clickLogo { page with logo := some ⟨h1⟩ } =
        clickLogo { page with logo := some ⟨h2⟩ }) := by
  constructor
  · have hs : selectorResult page "#home" =
        .ok (page.sections.find? (fun s => s.id == some "home")) := rfl
    simp [clickLogo, hs, hhome]
  · intro h1 h2
    rfl

/-- C7 witness: the logo click on the demo page scrolls to the home
section, whatever the logo's own target reference. -/
theorem c7_witness :
    clickLogo demoPage =
      .ok [Effect.preventDefault,
           Effect.scrollIntoView ⟨some "home"⟩ "smooth" "start"] ∧
    (∀ h1 h2 : Option String,
      clickLogo { demoPage with logo := some ⟨h1⟩ } =
        clickLogo { demoPage with logo := some ⟨h2⟩ }) :=
  c7_logo_click demoPage ⟨some "home"⟩ (by decide)

/-- C8: on a page whose initialization completes (a logo exists), the
first nav link of the collection is marked active unconditionally —
the seeded state is exactly the input collection with the head's
active flag set, regardless of anything else on the page. -/
theorem c8_seed_first (page : Page) (lg : Logo) (l : NavLink) (rest : List NavLink)
    (hlogo : page.logo = some lg) (hlinks : page.navLinks = l :: rest) :
    initScript page = .ok ({ l with active := true } :: rest) := by
  simp [initScript, hlogo, hlinks, seedActive]

/-- C8 witness: initializing the demo page marks the `"home"` link (the
first of the collection) active and no other. -/
theorem c8_witness :
    initScript demoPage =
      .ok [⟨some "#home", some "home", true⟩,
           ⟨some "#about", some "about", false⟩,
           ⟨some "#projects", some "projects", false⟩] :=
  c8_seed_first demoPage ⟨some "#home"⟩ ⟨some "#home", some "home", false⟩
    [⟨some "#about", some "about", false⟩, ⟨some "#projects", some "projects", false⟩]
    rfl rfl

/-- C9: a batch in which no entry reports intersection leaves the nav
links exactly unchanged (and raises no error): the tracker reacts only
to entering, never to leaving. -/
theorem c9_ignores_leaving (links : List NavLink) (entries : List Entry)
    (h : ∀ e ∈ entries, e.isIntersecting = false) :
    observerCallback links entries = .ok links := by
  induction entries with
  | nil => rfl
  | cons e es ih =>
    have he : e.isIntersecting = false := h e (List.mem_cons_self e es)
    rw [observerCallback_cons]
    simp only [he, Bool.false_eq_true, if_false]
    exact ih fun x hx => h x (List.mem_cons_of_mem e hx)

/-- C9 witness: `"projects"` leaving the band (a non-intersecting
entry) changes nothing on the demo links. -/
theorem c9_witness :
    observerCallback demoLinks [⟨false, ⟨some "projects"⟩⟩] = .ok demoLinks :=
  c9_ignores_leaving demoLinks [⟨false, ⟨some "projects"⟩⟩] (by decide)

/-- C10: processing the same intersecting, matched, quote-free entry
twice in a row is idempotent: the first processing yields the cleared
collection with the matched position set active, the second yields that
same state again, and exactly one link is active. -/
theorem c10_idempotent (links : List NavLink) (e : Entry) (i : Nat)
    (hint : e.isIntersecting = true)
    (hq : hasDQuote (entryKey e) = false)
    (hidx : findTargetIdx (entryKey e) links = some i) :
    observerCallback links [e] = .ok (setIdxActive (removeAllActiveClasses links) i) ∧
    observerCallback (setIdxActive (removeAllActiveClasses links) i) [e] =
      .ok (setIdxActive (removeAllActiveClasses links) i) ∧
    countActive (setIdxActive (removeAllActiveClasses links) i) = 1 := by
  have hclear : removeAllActiveClasses (setIdxActive (removeAllActiveClasses links) i)
      = removeAllActiveClasses links := by
    rw [removeAll_setIdxActive, removeAll_removeAll]
  refine ⟨?_, ?_, ?_⟩
  · rw [observerCallback_cons]
    simp only [hint, if_true]
    rw [setActiveLink_found links e.target.id i hq hidx]
    rfl
  · rw [observerCallback_cons]
    simp only [hint, if_true]
    have hfs : findTargetIdx (entryKey e)
        (setIdxActive (removeAllActiveClasses links) i) = some i := by
      rw [findTargetIdx_congr (entryKey e) hclear]
      exact hidx
    rw [setActiveLink_found _ e.target.id i hq hfs, hclear]
    rfl
  · apply countActive_setIdxActive_one
    · exact removeAll_all_false links
    · have hlt := findTargetIdx_lt_length (entryKey e) links i hidx
      simpa using hlt

/-- C10 witness: observing `"about"` entering twice in a row on the
demo links is idempotent with exactly one active link. -/
theorem c10_witness :
    observerCallback demoLinks [⟨true, ⟨some "about"⟩⟩] =
      .ok (setIdxActive (removeAllActiveClasses demoLinks) 1) ∧
    observerCallback (setIdxActive (removeAllActiveClasses demoLinks) 1)
        [⟨true, ⟨some "about"⟩⟩] =
      .ok (setIdxActive (removeAllActiveClasses demoLinks) 1) ∧
    countActive (setIdxActive (removeAllActiveClasses demoLinks) 1) = 1 :=
  c10_idempotent demoLinks ⟨true, ⟨some "about"⟩⟩ 1 rfl (by decide) (by decide)

end Craftivo
